import Mathlib

/-!
Verification development for the configurable KPI processing engine
(`scripts/complete_configurable_processor.py`).

The Python class `CompleteConfigurableProcessor` is embedded shallowly:

* a pandas `DataFrame` becomes `DF` (a set of present canonical columns plus
  a list of rows whose cells are `Option`-valued; date-like cells are
  modelled as already-parsed day numbers, `none` standing for NaN/NaT);
* the parsed YAML configuration becomes the `Config` structure, with every
  `dict.get(key, default)` of the source rendered as an `Option` field read
  through `Option.getD`;
* the mutable on-disk cache (`baseline_counts.json`, `kpi_cache.json`,
  `record_signatures.pkl`, `last_processed.json`) becomes the `CacheState`
  structure threaded explicitly through the three processing modes;
* raised exceptions become `Except String`;
* `datetime.now()` / `pd.Timestamp.now()` becomes an explicit `now : Int`
  argument (a day number, matching the whole-day arithmetic of the source);
* Python duplicate method definitions inside the class body are resolved the
  way Python resolves them: the later definition wins.  In particular the
  effective `_update_affected_counts`, `_update_affected_kpis` and
  `_calculate_targeted_kpi_counts` are the second definitions in the file.

Dictionaries keyed by strings become association lists with the dict
semantics spelled out at the access functions.
-/

namespace KpiProc

/-- Canonical column identifiers produced by `_apply_column_mapping`.  The
engine only ever consults these canonical names. -/
inductive Col
  | number
  | priority
  | state
  | reassignment_count
  | opened_at
  | resolved_at
  | country
deriving DecidableEq

/-- One record row.  `priority` is the raw priority text; the numeric
priority is derived per calculation exactly as the source re-derives it.
`opened_at` and `resolved_at` are parsed day numbers (`none` = NaT), and
`reassignment_count` is `none` when the CSV cell was null. -/
structure Row where
  number : Option String := none
  priority : Option String := none
  state : Option String := none
  reassignment_count : Option Int := none
  opened_at : Option Int := none
  resolved_at : Option Int := none
  country : Option String := none
deriving DecidableEq

/-- A mapped data frame: the set of canonical columns that are present, and
the rows.  A cell of a row is only meaningful when its column is present;
every access below is guarded by a column-presence test exactly where the
source guards with `in df.columns`. -/
structure DF where
  cols : List Col := []
  rows : List Row := []
deriving DecidableEq

/-- The Python `str()` rendering of a possibly-null string cell (pandas
renders a missing value as the string nan). -/
def optStr : Option String → String
  | some s => s
  | none => "nan"

/-- The Python `str()` rendering of a possibly-null integer cell. -/
def optIntStr : Option Int → String
  | some n => toString n
  | none => "nan"

/-- String form of one cell, as used by the signature generator when it
joins the configured signature fields. -/
def cellStr (r : Row) : Col → String
  | .number => optStr r.number
  | .priority => optStr r.priority
  | .state => optStr r.state
  | .reassignment_count => optIntStr r.reassignment_count
  | .opened_at => optIntStr r.opened_at
  | .resolved_at => optIntStr r.resolved_at
  | .country => optStr r.country

/-- Per-KPI `targets` section; absent keys fall back to the defaults coded
in the calculators. -/
structure Targets where
  p1_max : Option Int := none
  p2_max : Option Int := none
  total_major_max : Option Int := none
  backlog_max : Option Int := none
  adherence_min : Option ℚ := none
  aging_threshold_days : Option Int := none
  ftf_rate_min : Option ℚ := none
  ftf_count_min : Option Int := none
  aged_max : Option Int := none
deriving DecidableEq

/-- One entry of the `kpis` configuration section. -/
structure KpiConfig where
  enabled : Bool := true
  name : Option String := none
  method : String := ""
  targets : Targets := {}
  required_fields : List Col := []
  business_impact : Option String := none
  escalation_required : Bool := false
  fallback_behavior : String := "disable"
  top_countries_limit : Nat := 5
  include_priority_breakdown : Bool := true
  analysis_dimensions : List String := []
deriving DecidableEq

/-- The `thresholds` configuration section.  `aging` is the ordered list of
entries of the aging dictionary (threshold name, day count); the source
iterates over all of them and also reads `backlog_days` out of the same
dictionary. -/
structure Thresholds where
  major_incident_levels : Option (List Int) := none
  unknown_fallback : Option Int := none
  aging : List (String × Int) := []
deriving DecidableEq

/-- The `processing` configuration section.  The priority-extraction regular
expression is modelled by the digit-run extractor below, which embeds the
default pattern of the source. -/
structure ProcessingRules where
  signature_fields : Option (List Col) := none
  reassignment_null_value : Int := 0
  fallback_value : Int := 99
deriving DecidableEq

/-- Weights of `global_status_rules.scorecard_scoring`. -/
structure ScoringRules where
  weight_sm001 : Option ℚ := none
  weight_sm002 : Option ℚ := none
  weight_sm003 : Option ℚ := none
  weight_sm004 : Option ℚ := none
deriving DecidableEq

/-- The `sm003_disabled_weights` sub-dictionary. -/
structure DisabledWeights where
  weight_sm001 : Option ℚ := none
  weight_sm002 : Option ℚ := none
  weight_sm004 : Option ℚ := none
deriving DecidableEq

/-- The `performance_bands` cutoffs. -/
structure PerformanceBands where
  excellent : Option ℚ := none
  good : Option ℚ := none
  needs_improvement : Option ℚ := none
deriving DecidableEq

/-- The `global_status_rules` configuration section. -/
structure StatusRules where
  scorecard_scoring : ScoringRules := {}
  sm003_disabled_weights : DisabledWeights := {}
  performance_bands : PerformanceBands := {}
deriving DecidableEq

/-- The whole parsed configuration, as read by `__init__`. -/
structure Config where
  version : String := "unknown"
  kpis : List (String × KpiConfig) := []
  thresholds : Thresholds := {}
  status_rules : StatusRules := {}
  processing : ProcessingRules := {}
deriving DecidableEq

/-- Lookup of one KPI id in the `kpis` configuration dictionary. -/
def lookupKpi (cfg : Config) (kpiId : String) : Option KpiConfig :=
  (cfg.kpis.find? (fun p => p.1 = kpiId)).map (·.2)

/-- The counts dictionary: metric name to integer. -/
abbrev Counts := List (String × Int)

/-- Dictionary read with default 0, as `counts.get(key, 0)`. -/
def countsGet : Counts → String → Int
  | [], _ => 0
  | p :: rest, k => if p.1 = k then p.2 else countsGet rest k

/-- Dictionary write `counts[key] = v`: replaces the value in place when the
key exists, otherwise appends (Python dict insertion order). -/
def countsSet : Counts → String → Int → Counts
  | [], k, v => [(k, v)]
  | p :: rest, k, v => if p.1 = k then (k, v) :: rest else p :: countsSet rest k v

/-- Successive dictionary writes of a list of key-value pairs. -/
def countsSetAll (c : Counts) : List (String × Int) → Counts
  | [] => c
  | kv :: rest => countsSetAll (countsSet c kv.1 kv.2) rest

def totalTicketsKey : String := "total_tickets"
def zeroReassignKey : String := "zero_reassignments"
def resolvedTicketsKey : String := "resolved_tickets"
def backlogTotalKey : String := "servicenow_backlog_total"
def totalCountriesKey : String := "total_countries"
def geoAvailableKey : String := "geographic_data_available"
def daysSuffix : String := "_days"
def emptyStr : String := ""

/-- Key of a priority-level count, `priority_{level}_tickets` in the
source. -/
def priorityLevelKey (level : Int) : String :=
  "priority_" ++ (toString level ++ "_tickets")

/-- Key of an aging count, `incidents_` plus the threshold name with the
`_days` suffix removed (Python `str.replace` removes every occurrence). -/
def incidentsKey (thresholdName : String) : String :=
  "incidents_" ++ String.replace thresholdName daysSuffix emptyStr

/-- Configured major-incident priority levels, default `[1, 2]`. -/
def majorLevels (cfg : Config) : List Int :=
  cfg.thresholds.major_incident_levels.getD [1, 2]

/-- Configured backlog day threshold: `thresholds.aging.backlog_days`,
default 10. -/
def backlogDays (cfg : Config) : Int :=
  match cfg.thresholds.aging.find? (fun p => p.1 = "backlog_days") with
  | some p => p.2
  | none => 10

/-- First maximal digit run of a character list, if any: the semantics of
matching the default priority-extraction pattern (one or more digits) and
taking the first match. -/
def firstDigitRun : List Char → Option (List Char)
  | [] => none
  | c :: cs => if c.isDigit then some (c :: cs.takeWhile (·.isDigit)) else firstDigitRun cs

/-- Decimal value of a digit list. -/
def digitsToNat (cs : List Char) : Nat :=
  cs.foldl (fun a c => a * 10 + (c.toNat - Char.toNat '0')) 0

/-- Extract the first number from a raw priority string, the embedding of
`str.extract` with the default digits pattern of `priority_extraction`. -/
def extractFirstNat (s : String) : Option Nat :=
  (firstDigitRun s.data).map digitsToNat

/-- Derived numeric priority of one row: extract a number from the raw text,
fall back to the configured unknown value (default 99) when the cell is null
or carries no digits.  This is the `priority_numeric` derivation used by the
counting code, which reads `thresholds.priority.unknown_fallback`. -/
def priorityNumeric (cfg : Config) (r : Row) : ℚ :=
  let fb : ℚ := ((cfg.thresholds.unknown_fallback.getD 99 : Int) : ℚ)
  match r.priority with
  | none => fb
  | some s =>
    match extractFirstNat s with
    | some n => (n : ℚ)
    | none => fb

/-- Age of a row in whole days, `(now - opened_at).dt.days`; `none` when
`opened_at` is NaT (a comparison against NaN is false in pandas). -/
def ageDays (now : Int) (r : Row) : Option Int :=
  r.opened_at.map (fun o => now - o)

/-- The boolean `age_days > days`, false on a missing age. -/
def ageExceeds (now days : Int) (r : Row) : Bool :=
  match ageDays now r with
  | some a => days < a
  | none => false

/-- The literal backlog mask of the source:
`(is_resolved & (age_days > backlog_days)) | (~is_resolved & (age_days > backlog_days))`
where `age_days` is current-date minus `opened_at` on both branches. -/
def backlogMask (now days : Int) (r : Row) : Bool :=
  (r.resolved_at.isSome && ageExceeds now days r)
    || (!r.resolved_at.isSome && ageExceeds now days r)

/-- Null-filled reassignment count of one row, `fillna(null_value)`. -/
def reassignFilled (cfg : Config) (r : Row) : Int :=
  r.reassignment_count.getD cfg.processing.reassignment_null_value

/-- The in-place `df['reassignment_count'] = df['reassignment_count'].fillna(...)`
performed while counting: the data frame whose null reassignment counts are
replaced by the configured null value (when that column exists).  The
baseline run saves record signatures from this mutated frame. -/
def fillnaReassign (cfg : Config) (df : DF) : DF :=
  if Col.reassignment_count ∈ df.cols then
    { df with rows := df.rows.map (fun r => { r with reassignment_count := some (reassignFilled cfg r) }) }
  else df

/-- Priority block of `_calculate_configurable_baseline_counts`: one count
per configured major level. -/
def priorityCountPairs (cfg : Config) (df : DF) : List (String × Int) :=
  (majorLevels cfg).map (fun level =>
    (priorityLevelKey level,
      (df.rows.countP (fun r => priorityNumeric cfg r == (level : ℚ)) : Int)))

/-- Aging block: one count per entry of the aging dictionary. -/
def agingCountPairs (df : DF) (now : Int) : List (String × Int) → List (String × Int)
  | [] => []
  | nd :: rest =>
    (incidentsKey nd.1, (df.rows.countP (ageExceeds now nd.2) : Int)) :: agingCountPairs df now rest

/-- Count of rows with a zero (null-filled) reassignment count. -/
def zeroReassignCount (cfg : Config) (df : DF) : Int :=
  (df.rows.countP (fun r => reassignFilled cfg r == 0) : Int)

/-- Count of rows whose backlog mask holds. -/
def backlogCount (cfg : Config) (df : DF) (now : Int) : Int :=
  (df.rows.countP (backlogMask now (backlogDays cfg)) : Int)

/-- Distinct non-null country values, pandas `nunique`. -/
def countryNunique (df : DF) : Int :=
  ((df.rows.filterMap (·.country)).dedup.length : Int)

/-- Step 1 of the baseline counter: `counts = {'total_tickets': len(df)}`. -/
def countsStepTotal (df : DF) : Counts :=
  [(totalTicketsKey, (df.rows.length : Int))]

/-- Step 2: priority-based counts, only when the priority column exists. -/
def countsStepPriority (cfg : Config) (df : DF) (c : Counts) : Counts :=
  if Col.priority ∈ df.cols then countsSetAll c (priorityCountPairs cfg df) else c

/-- Step 3: zero-reassignment count, only when the column exists. -/
def countsStepReassign (cfg : Config) (df : DF) (c : Counts) : Counts :=
  if Col.reassignment_count ∈ df.cols then countsSet c zeroReassignKey (zeroReassignCount cfg df) else c

/-- Step 4: resolved-ticket count, only when the column exists. -/
def countsStepResolved (df : DF) (c : Counts) : Counts :=
  if Col.resolved_at ∈ df.cols then
    countsSet c resolvedTicketsKey ((df.rows.countP (fun r => r.resolved_at.isSome)) : Int)
  else c

/-- Step 5: configurable aging counts, only when `opened_at` exists. -/
def countsStepAging (cfg : Config) (df : DF) (now : Int) (c : Counts) : Counts :=
  if Col.opened_at ∈ df.cols then countsSetAll c (agingCountPairs df now cfg.thresholds.aging) else c

/-- Step 6: the ServiceNow backlog count, only when both date columns
exist. -/
def countsStepBacklog (cfg : Config) (df : DF) (now : Int) (c : Counts) : Counts :=
  if Col.opened_at ∈ df.cols ∧ Col.resolved_at ∈ df.cols then
    countsSet c backlogTotalKey (backlogCount cfg df now)
  else c

/-- Step 7: geographic counts; the availability flag is written on both
branches. -/
def countsStepCountry (df : DF) (c : Counts) : Counts :=
  if Col.country ∈ df.cols then
    countsSet (countsSet c totalCountriesKey (countryNunique df)) geoAvailableKey 1
  else countsSet c geoAvailableKey 0

/-- `_calculate_configurable_baseline_counts`: the metric counter producing
the baseline counts dictionary from the mapped record set. -/
def calculateConfigurableBaselineCounts (cfg : Config) (df : DF) (now : Int) : Counts :=
  countsStepCountry df
    (countsStepBacklog cfg df now
      (countsStepAging cfg df now
        (countsStepResolved df
          (countsStepReassign cfg df
            (countsStepPriority cfg df (countsStepTotal df))))))

/-- Rounding to one decimal place, Python `round(x, 1)` (the tie-breaking
convention is irrelevant to every property proved here). -/
def round1 (q : ℚ) : ℚ :=
  ((round (q * 10) : ℤ) : ℚ) / 10

/-- Python `int()` truncation toward zero on a rational. -/
def pyInt (q : ℚ) : Int :=
  if 0 ≤ q then ⌊q⌋ else -⌊-q⌋

/-- Per-country priority breakdown of the geographic analysis. -/
structure GeoCountryPriority where
  total_incidents : Nat
  major_incidents : Nat
  level_counts : List (Int × Nat)
deriving DecidableEq

/-- The `country_statistics` block of the geographic analysis.  The country
distribution is kept in descending-count order (the order produced by
`value_counts`); dictionary equality in the source ignores ordering, so one
canonical order is fixed here. -/
structure GeoStats where
  total_countries : Int
  country_distribution : List (String × Nat)
  top_countries : List (String × Nat)
  priority_by_country : Option (List (String × GeoCountryPriority)) := none
deriving DecidableEq

/-- One KPI result dictionary.  Every calculator fills the subset of fields
the source writes for it; fields it does not write stay `none`.  The flat
`targets_` fields embed the nested `targets` sub-dictionary. -/
structure KpiResult where
  name : String
  status : String
  business_impact : String := ""
  calculation_timestamp : Int
  p1_count : Option Int := none
  p2_count : Option Int := none
  total_major : Option Int := none
  p1_percentage : Option ℚ := none
  p2_percentage : Option ℚ := none
  escalation_flag : Option Bool := none
  backlog_count : Option Int := none
  total_incidents : Option Int := none
  backlog_percentage : Option ℚ := none
  adherence_rate : Option ℚ := none
  aging_threshold_days : Option Int := none
  ftf_count : Option Int := none
  total_contacts : Option Int := none
  ftf_rate : Option ℚ := none
  gap_incidents : Option Int := none
  aged_count : Option Int := none
  total_requests : Option Int := none
  aging_percentage : Option ℚ := none
  reason : Option String := none
  recommendation : Option String := none
  data_source : Option String := none
  targets_p1_max : Option Int := none
  targets_p2_max : Option Int := none
  targets_total_major_max : Option Int := none
  targets_backlog_max : Option Int := none
  targets_adherence_min : Option ℚ := none
  targets_aging_threshold_days : Option Int := none
  targets_ftf_rate_min : Option ℚ := none
  targets_ftf_count_min : Option (Option Int) := none
  targets_aged_max : Option Int := none
  country_statistics : Option GeoStats := none
  analysis_dimensions : Option (List String) := none
deriving DecidableEq

/-- `_calculate_sm001_major_incidents`. -/
def calcSm001 (counts : Counts) (targets : Targets) (k : KpiConfig) (now : Int) : KpiResult :=
  let p1 := countsGet counts (priorityLevelKey 1)
  let p2 := countsGet counts (priorityLevelKey 2)
  let totalMajor := p1 + p2
  let p1Max := targets.p1_max.getD 0
  let p2Max := targets.p2_max.getD 5
  let totalMajorMax := targets.total_major_max.getD p2Max
  let p1Exceeded := p1Max < p1
  let p2Exceeded := p2Max < p2
  let totalExceeded := totalMajorMax < totalMajor
  let status :=
    if p1Exceeded then "Critical"
    else if p2Exceeded ∨ totalExceeded then "Above Target"
    else "Target Met"
  let totalIncidents := countsGet counts totalTicketsKey
  let p1Pct : ℚ := if 0 < totalIncidents then (p1 : ℚ) / (totalIncidents : ℚ) * 100 else 0
  let p2Pct : ℚ := if 0 < totalIncidents then (p2 : ℚ) / (totalIncidents : ℚ) * 100 else 0
  { name := k.name.getD "Major Incidents"
    status := status
    business_impact := k.business_impact.getD "High"
    calculation_timestamp := now
    p1_count := some p1
    p2_count := some p2
    total_major := some totalMajor
    p1_percentage := some (round1 p1Pct)
    p2_percentage := some (round1 p2Pct)
    escalation_flag := some (p1Exceeded && k.escalation_required)
    targets_p1_max := some p1Max
    targets_p2_max := some p2Max
    targets_total_major_max := some totalMajorMax }

/-- `_calculate_sm002_backlog`. -/
def calcSm002 (counts : Counts) (targets : Targets) (k : KpiConfig) (now : Int) : KpiResult :=
  let backlog := countsGet counts backlogTotalKey
  let totalIncidents := countsGet counts totalTicketsKey
  let backlogMax := targets.backlog_max.getD 0
  let adherenceMin := targets.adherence_min.getD 90
  let agingThreshold := targets.aging_threshold_days.getD 10
  let backlogPct : ℚ := if 0 < totalIncidents then (backlog : ℚ) / (totalIncidents : ℚ) * 100 else 0
  let adherence : ℚ := max 0 (100 - backlogPct)
  let status :=
    if backlog ≤ backlogMax ∧ adherenceMin ≤ adherence then "Target Met"
    else if adherence < 50 then "Critical"
    else "Needs Improvement"
  { name := k.name.getD "ServiceNow Backlog"
    status := status
    business_impact := k.business_impact.getD "High"
    calculation_timestamp := now
    backlog_count := some backlog
    total_incidents := some totalIncidents
    backlog_percentage := some (round1 backlogPct)
    adherence_rate := some (round1 adherence)
    aging_threshold_days := some agingThreshold
    targets_backlog_max := some backlogMax
    targets_adherence_min := some adherenceMin }

/-- `_calculate_sm003_request_aging`. -/
def calcSm003 (targets : Targets) (k : KpiConfig) (now : Int) : KpiResult :=
  if k.fallback_behavior = "disable" then
    { name := k.name.getD "Service Request Aging"
      status := "Disabled"
      calculation_timestamp := now
      reason := some "No service request data available"
      data_source := some "incident_table_only"
      recommendation := some "Enable when service catalog data becomes available" }
  else
    { name := k.name.getD "Service Request Aging"
      status := "No Data"
      business_impact := k.business_impact.getD "Medium"
      calculation_timestamp := now
      aged_count := some 0
      total_requests := some 0
      aging_percentage := some 0
      adherence_rate := some 100
      targets_aged_max := some (targets.aged_max.getD 0)
      targets_adherence_min := some (targets.adherence_min.getD 90) }

/-- `_calculate_sm004_first_time_fix`. -/
def calcSm004 (counts : Counts) (targets : Targets) (k : KpiConfig) (now : Int) : KpiResult :=
  let ftf := countsGet counts zeroReassignKey
  let totalContacts := countsGet counts totalTicketsKey
  let rateMin := targets.ftf_rate_min.getD 80
  let rate : ℚ := if 0 < totalContacts then (ftf : ℚ) / (totalContacts : ℚ) * 100 else 0
  let status :=
    if rateMin ≤ rate then "Target Met"
    else if rate < 60 then "Critical"
    else "Below Target"
  let targetCount : Int :=
    if 0 < totalContacts then pyInt ((totalContacts : ℚ) * rateMin / 100) else 0
  let gap := max 0 (targetCount - ftf)
  { name := k.name.getD "First Time Fix"
    status := status
    business_impact := k.business_impact.getD "High"
    calculation_timestamp := now
    ftf_count := some ftf
    total_contacts := some totalContacts
    ftf_rate := some (round1 rate)
    gap_incidents := some gap
    targets_ftf_rate_min := some rateMin
    targets_ftf_count_min := some targets.ftf_count_min }

/-- Distinct non-null countries in first-occurrence order. -/
def uniqueCountries (df : DF) : List String :=
  (df.rows.filterMap (·.country)).dedup

/-- Stable descending insertion by count, fixing the `value_counts` order. -/
def insertByCountDesc (x : String × Nat) : List (String × Nat) → List (String × Nat)
  | [] => [x]
  | y :: ys => if y.2 < x.2 then x :: y :: ys else y :: insertByCountDesc x ys

/-- Country counts sorted by descending count. -/
def countryCountsSorted (df : DF) : List (String × Nat) :=
  (uniqueCountries df).foldr
    (fun c acc => insertByCountDesc (c, df.rows.countP (fun r => r.country == some c)) acc) []

/-- Numeric priority used inside the geographic analysis, which reads the
extraction fallback from `processing.priority_extraction.fallback_value`. -/
def geoPriorityNumeric (cfg : Config) (r : Row) : ℚ :=
  let fb : ℚ := ((cfg.processing.fallback_value : Int) : ℚ)
  match r.priority with
  | none => fb
  | some s =>
    match extractFirstNat s with
    | some n => (n : ℚ)
    | none => fb

/-- Per-country priority analysis of `_calculate_geographic_analysis`. -/
def geoCountryPriorityStats (cfg : Config) (df : DF) (c : String) : GeoCountryPriority :=
  let rowsC := df.rows.filter (fun r => r.country == some c)
  let levels := majorLevels cfg
  { total_incidents := rowsC.length
    major_incidents := rowsC.countP (fun r => levels.any (fun l => geoPriorityNumeric cfg r == (l : ℚ)))
    level_counts := levels.map (fun l => (l, rowsC.countP (fun r => geoPriorityNumeric cfg r == (l : ℚ)))) }

/-- `_calculate_geographic_analysis`. -/
def calcGeographic (cfg : Config) (df? : Option DF) (k : KpiConfig) (now : Int) : KpiResult :=
  match df? with
  | none =>
    { name := k.name.getD "Geographic Analysis"
      status := "No Data"
      calculation_timestamp := now
      reason := some "Country field not available" }
  | some df =>
    if Col.country ∈ df.cols then
      let sorted := countryCountsSorted df
      let stats : GeoStats :=
        { total_countries := countryNunique df
          country_distribution := sorted
          top_countries := sorted.take k.top_countries_limit
          priority_by_country :=
            if k.include_priority_breakdown ∧ Col.priority ∈ df.cols
                ∧ "priority_by_country" ∈ k.analysis_dimensions then
              some ((uniqueCountries df).map (fun c => (c, geoCountryPriorityStats cfg df c)))
            else none }
      { name := k.name.getD "Geographic Analysis"
        status := "Available"
        business_impact := k.business_impact.getD "Low"
        calculation_timestamp := now
        country_statistics := some stats
        analysis_dimensions := some k.analysis_dimensions }
    else
      { name := k.name.getD "Geographic Analysis"
        status := "No Data"
        calculation_timestamp := now
        reason := some "Country field not available" }

/-- `_calculate_single_configurable_kpi`: dispatch on the pair of KPI id and
configured calculation method; an unknown pair (or an id absent from the
configuration) yields the empty result, rendered as `none`. -/
def calculateSingleConfigurableKpi (cfg : Config) (kpiId : String) (counts : Counts)
    (df? : Option DF) (now : Int) : Option KpiResult :=
  match lookupKpi cfg kpiId with
  | none => none
  | some k =>
    if kpiId = "SM001" ∧ k.method = "priority_count" then
      some (calcSm001 counts k.targets k now)
    else if kpiId = "SM002" ∧ k.method = "servicenow_backlog" then
      some (calcSm002 counts k.targets k now)
    else if kpiId = "SM003" ∧ k.method = "request_aging" then
      some (calcSm003 k.targets k now)
    else if kpiId = "SM004" ∧ k.method = "zero_reassignments" then
      some (calcSm004 counts k.targets k now)
    else if kpiId = "GEOGRAPHIC" ∧ k.method = "country_distribution" then
      some (calcGeographic cfg df? k now)
    else none

/-- The KPI results dictionary, keyed by KPI id. -/
abbrev KpiMap := List (String × KpiResult)

/-- Dictionary read. -/
def kpiLookup (m : KpiMap) (k : String) : Option KpiResult :=
  (m.find? (fun p => p.1 = k)).map (·.2)

/-- Dictionary write preserving insertion order. -/
def kpiSet : KpiMap → String → KpiResult → KpiMap
  | [], k, v => [(k, v)]
  | p :: rest, k, v => if p.1 = k then (k, v) :: rest else p :: kpiSet rest k v

/-- `_get_kpi_score`. -/
def getKpiScore (kpiId : String) (r : KpiResult) : ℚ :=
  if kpiId = "SM001" then
    if r.status = "Target Met" then 100
    else if r.status = "Above Target" then 50
    else 0
  else if kpiId = "SM002" then
    min 100 (max 0 (r.adherence_rate.getD 0))
  else if kpiId = "SM003" then
    if r.status = "Disabled" ∨ r.status = "No Data" then 100
    else min 100 (max 0 (r.adherence_rate.getD 0))
  else if kpiId = "SM004" then
    min 100 (max 0 (r.ftf_rate.getD 0))
  else
    if r.status = "Target Met" then 100
    else if r.status = "Above Target" ∨ r.status = "Below Target" then 60
    else 0

/-- One entry of the scorecard `kpi_scores` dictionary. -/
structure KpiScoreEntry where
  score : ℚ
  weight : ℚ
  weighted_score : ℚ
  status : String
deriving DecidableEq

/-- The overall scorecard record. -/
structure Scorecard where
  overall_score : ℚ
  performance_band : String
  kpi_scores : List (String × KpiScoreEntry)
  weights_used : List (String × ℚ)
  sm003_enabled : Bool
  calculation_timestamp : Int
deriving DecidableEq

/-- `_calculate_scorecard_score`. -/
def calculateScorecardScore (cfg : Config) (kpis : KpiMap) (now : Int) : Scorecard :=
  let sm003Enabled :=
    match kpiLookup kpis "SM003" with
    | some r => decide (r.status ≠ "Disabled" ∧ r.status ≠ "No Data")
    | none => false
  let sc := cfg.status_rules.scorecard_scoring
  let dw := cfg.status_rules.sm003_disabled_weights
  let weights : List (String × ℚ) :=
    if sm003Enabled then
      [("SM001", sc.weight_sm001.getD 25 / 100), ("SM002", sc.weight_sm002.getD 40 / 100),
       ("SM003", sc.weight_sm003.getD 25 / 100), ("SM004", sc.weight_sm004.getD 10 / 100)]
    else
      [("SM001", dw.weight_sm001.getD 25 / 100), ("SM002", dw.weight_sm002.getD 50 / 100),
       ("SM004", dw.weight_sm004.getD 25 / 100)]
  let folded :=
    weights.foldl
      (fun (acc : ℚ × List (String × KpiScoreEntry)) w =>
        match kpiLookup kpis w.1 with
        | none => acc
        | some r =>
          let s := getKpiScore w.1 r
          (acc.1 + s * w.2,
            acc.2 ++ [(w.1, { score := s, weight := w.2, weighted_score := s * w.2, status := r.status })]))
      (0, [])
  let bands := cfg.status_rules.performance_bands
  let band :=
    if bands.excellent.getD 90 ≤ folded.1 then "Excellent"
    else if bands.good.getD 80 ≤ folded.1 then "Good"
    else if bands.needs_improvement.getD 60 ≤ folded.1 then "Needs Improvement"
    else "Poor"
  { overall_score := round1 folded.1
    performance_band := band
    kpi_scores := folded.2
    weights_used := weights
    sm003_enabled := sm003Enabled
    calculation_timestamp := now }

/-- The record fingerprint table.  It is built row by row like the Python
dictionary; a later entry with the same key shadows an earlier one, which the
read functions below implement, so the list is the dictionary together with
its insertion history. -/
abbrev SigTable := List (String × String)

/-- Dictionary read: the value of the last entry carrying the key. -/
def sigLookup : SigTable → String → Option String
  | [], _ => none
  | p :: rest, k =>
    match sigLookup rest k with
    | some v => some v
    | none => if p.1 = k then some p.2 else none

/-- The distinct keys of the fingerprint dictionary. -/
def sigKeys (t : SigTable) : List String :=
  (t.map (·.1)).dedup

/-- Stand-in for the MD5 hex digest of the source.  The processor compares
digests only for equality, so the model uses the hashed text itself as its
digest. -/
def hashSig (s : String) : String := s

/-- Join of the signature field values, `|`.join in the source. -/
def joinBar (parts : List String) : String :=
  String.intercalate "|" parts

/-- The default signature field list of the source. -/
def defaultSignatureFields : List Col :=
  [.number, .priority, .state, .reassignment_count, .resolved_at]

/-- The configured signature fields, `processing.signature_fields` with the
default list as fallback. -/
def sigFieldsOf (cfg : Config) : List Col :=
  cfg.processing.signature_fields.getD defaultSignatureFields

/-- Record identifier of one row: the string form of its `number` cell, or
the positional `row_{idx}` fallback when the frame has no number column. -/
def recordId (cols : List Col) (r : Row) (idx : Nat) : String :=
  if Col.number ∈ cols then optStr r.number else "row_" ++ toString idx

/-- `_generate_configurable_signatures`: one fingerprint per row over the
available signature fields; the empty table when none of the configured
fields is a column of the frame. -/
def generateConfigurableSignatures (df : DF) (sigFields : List Col) : SigTable :=
  if (sigFields.filter (fun f => f ∈ df.cols)).isEmpty then []
  else
    df.rows.enum.map (fun p =>
      (recordId df.cols p.2 p.1,
        hashSig (joinBar ((sigFields.filter (fun f => f ∈ df.cols)).map (cellStr p.2)))))

/-- Identifiers present now but absent from the previous table. -/
def newRecordIds (prev cur : SigTable) : List String :=
  (sigKeys cur).filter (fun k => ¬ k ∈ sigKeys prev)

/-- Identifiers present in both tables whose fingerprints differ. -/
def changedRecordIds (prev cur : SigTable) : List String :=
  (sigKeys cur).filter (fun k => k ∈ sigKeys prev ∧ sigLookup cur k ≠ sigLookup prev k)

/-- The rows the source regards as changed: filtered by `number` membership
when that column exists, otherwise the first `min(changes, len)` rows by
position. -/
def changedRecordsOf (df : DF) (changedIds : List String) : List Row :=
  if Col.number ∈ df.cols then
    df.rows.filter (fun r =>
      match r.number with
      | some s => s ∈ changedIds
      | none => false)
  else
    df.rows.take (min changedIds.length df.rows.length)

/-- `_determine_affected_kpis_configurable`: every enabled KPI one of whose
required fields is a column of the changed-record frame (whose columns are
exactly the columns of the input frame). -/
def determineAffectedKpisConfigurable (cfg : Config) (df : DF) (changedIds : List String) :
    List String :=
  if (changedRecordsOf df changedIds).isEmpty then []
  else
    (cfg.kpis.filter (fun p =>
      p.2.enabled && p.2.required_fields.any (fun f => f ∈ df.cols))).map (·.1)

/-- The record of `_detect_configurable_changes`. -/
structure Changes where
  has_changes : Bool
  new_records : Nat := 0
  changed_records : Nat := 0
  total_changes : Nat := 0
  affected_kpis : List String := []
  speedup_factor : Nat := 0
deriving DecidableEq

/-- `_detect_configurable_changes`. -/
def detectConfigurableChanges (cfg : Config) (prev : SigTable) (df : DF) : Changes :=
  let cur := generateConfigurableSignatures df (sigFieldsOf cfg)
  let newIds := newRecordIds prev cur
  let changedIds := changedRecordIds prev cur
  let allIds := newIds ++ changedIds
  if allIds.isEmpty then { has_changes := false }
  else
    { has_changes := true
      new_records := newIds.length
      changed_records := changedIds.length
      total_changes := allIds.length
      affected_kpis := determineAffectedKpisConfigurable cfg df allIds
      speedup_factor := (sigKeys prev).length / max 1 allIds.length }

/-- The effective `_update_affected_counts` (the later of the two Python
definitions): a copy of the baseline counts with only `total_tickets` bumped
by the number of new records. -/
def updateAffectedCounts (changes : Changes) (baseline : Counts) : Counts :=
  if changes.has_changes then
    if 0 < changes.new_records then
      countsSet baseline totalTicketsKey
        (countsGet baseline totalTicketsKey + (changes.new_records : Int))
    else baseline
  else baseline

/-- The effective `_update_affected_kpis` (the later of the two Python
definitions): each affected KPI is recalculated from the carried-over
`updated_counts` and written over the cached KPI map; an empty result is
skipped. -/
def updateAffectedKpis (cfg : Config) (changes : Changes) (updatedCounts : Counts)
    (df : DF) (cache : KpiMap) (now : Int) : KpiMap :=
  changes.affected_kpis.foldl
    (fun acc kpiId =>
      match calculateSingleConfigurableKpi cfg kpiId updatedCounts (some df) now with
      | some r => kpiSet acc kpiId r
      | none => acc)
    cache

/-- The effective `_calculate_targeted_kpi_counts` (the later of the two
Python definitions), dispatching on the configured calculation method. -/
def calculateTargetedKpiCounts (cfg : Config) (df : DF) (kpiId : String) (now : Int) : Counts :=
  let k := (lookupKpi cfg kpiId).getD {}
  let c0 : Counts := [(totalTicketsKey, (df.rows.length : Int))]
  if k.method = "priority_count" ∧ Col.priority ∈ df.cols then
    countsSetAll c0 (priorityCountPairs cfg df)
  else if k.method = "zero_reassignments" ∧ Col.reassignment_count ∈ df.cols then
    countsSet c0 zeroReassignKey (zeroReassignCount cfg df)
  else if k.method = "servicenow_backlog" then
    if Col.opened_at ∈ df.cols ∧ Col.resolved_at ∈ df.cols then
      countsSet c0 backlogTotalKey (backlogCount cfg df now)
    else c0
  else if k.method = "country_distribution" ∧ Col.country ∈ df.cols then
    countsSet (countsSet c0 totalCountriesKey (countryNunique df)) geoAvailableKey 1
  else c0

/-- State of the fingerprint blob on disk: absent, present but unreadable,
or readable with a table. -/
inductive SigBlob
  | absent
  | corrupt
  | ok (table : SigTable)
deriving DecidableEq

/-- The `last_processed.json` metadata. -/
structure RunMeta where
  timestamp : Int
  record_count : Nat
  config_version : String
deriving DecidableEq

/-- The four cache blobs of the cache directory. -/
structure CacheState where
  baseline_counts : Option Counts := none
  kpi_cache : Option KpiMap := none
  record_signatures : SigBlob := .absent
  last_processed : Option RunMeta := none
deriving DecidableEq

/-- `_load_baseline_counts`: absent file loads as the empty dictionary. -/
def loadBaselineCounts (s : CacheState) : Counts :=
  s.baseline_counts.getD []

/-- `_load_kpi_cache`. -/
def loadKpiCache (s : CacheState) : KpiMap :=
  s.kpi_cache.getD []

/-- `_load_record_signatures`: an absent file loads as the empty table, but
an unreadable file raises out of `pickle.load` (`none` here). -/
def loadRecordSignatures : SigBlob → Option SigTable
  | .absent => some []
  | .corrupt => none
  | .ok t => some t

/-- The result envelope returned to the caller.  Each Python return
dictionary sets exactly the fields it carries; a field that the dictionary
does not contain stays `none`. -/
structure Envelope where
  mode : String
  timestamp : Option Int := none
  config_version : Option String := none
  records_processed : Option Nat := none
  changes_detected : Option Bool := none
  baseline_counts : Option Counts := none
  baseline_kpis : Option KpiMap := none
  overall_score : Option Scorecard := none
  enabled_kpis : Option (List String) := none
  geographic_analysis : Option Bool := none
  cache_created : Option Bool := none
  affected_kpis : Option (List String) := none
  updated_kpis : Option KpiMap := none
  processing_speedup : Option Nat := none
  processing_time : Option String := none
  kpis_updated : Option Nat := none
  target_kpi : Option String := none
  fields_processed : Option Nat := none
  updated_kpi : Option KpiResult := none
  message : Option String := none
deriving DecidableEq

/-- The enabled KPI ids, in configuration order. -/
def enabledKpiIds (cfg : Config) : List String :=
  (cfg.kpis.filter (fun p => p.2.enabled)).map (·.1)

/-- `_validate_data_compatibility`: every required field of every enabled
KPI must be a column of the mapped frame. -/
def validateDataCompatibility (cfg : Config) (df : DF) : Bool :=
  (cfg.kpis.filter (fun p => p.2.enabled)).all
    (fun p => p.2.required_fields.all (fun f => f ∈ df.cols))

/-- `_calculate_configurable_baseline_kpis`: every enabled KPI that yields a
non-empty result, in configuration order. -/
def calculateConfigurableBaselineKpis (cfg : Config) (df : DF) (counts : Counts)
    (now : Int) : KpiMap :=
  cfg.kpis.foldl
    (fun acc p =>
      if p.2.enabled then
        match calculateSingleConfigurableKpi cfg p.1 counts (some df) now with
        | some r => kpiSet acc p.1 r
        | none => acc
      else acc)
    []

/-- `process_baseline`: map, validate, count, calculate, persist all four
blobs, score, and return the full envelope.  The signatures are generated
from the frame as mutated by the counting step (null reassignment counts
filled in). -/
def processBaseline (cfg : Config) (df : DF) (now : Int) (s : CacheState) :
    Except String (Envelope × CacheState) :=
  if validateDataCompatibility cfg df then
    let counts := calculateConfigurableBaselineCounts cfg df now
    let dfMut := fillnaReassign cfg df
    let kpis := calculateConfigurableBaselineKpis cfg dfMut counts now
    let overall := calculateScorecardScore cfg kpis now
    let s2 : CacheState :=
      { baseline_counts := some counts
        kpi_cache := some kpis
        record_signatures := .ok (generateConfigurableSignatures dfMut (sigFieldsOf cfg))
        last_processed := some { timestamp := now, record_count := df.rows.length, config_version := cfg.version } }
    .ok
      ({ mode := "baseline"
         timestamp := some now
         config_version := some cfg.version
         records_processed := some df.rows.length
         baseline_counts := some counts
         baseline_kpis := some kpis
         overall_score := some overall
         enabled_kpis := some (enabledKpiIds cfg)
         geographic_analysis := some ((kpiLookup kpis "GEOGRAPHIC").isSome)
         cache_created := some true
         message := some "Baseline established with complete configurability" }, s2)
  else .error "Data missing required columns"

/-- The short-circuit envelope of the no-changes incremental branch: it is
the literal return dictionary of the source, which carries neither a
timestamp nor a record count nor a scorecard. -/
def noChangesEnvelope (cfg : Config) : Envelope :=
  { mode := "incremental"
    changes_detected := some false
    processing_time := some "< 1 second"
    kpis_updated := some 0
    config_version := some cfg.version }

/-- Restriction of the updated KPI map to the affected ids for the
incremental envelope.  The source indexes the dictionary directly and would
raise a KeyError on an affected id missing from the map (possible only when
an affected KPI has an unknown calculation method and no cached result);
this model omits such an entry instead, a difference no tracked property
observes. -/
def restrictKpis (m : KpiMap) (ids : List String) : KpiMap :=
  ids.filterMap (fun k => (kpiLookup m k).map (fun r => (k, r)))

def noBaselineError : String := "No baseline found. Run --mode baseline first."
def sigUnreadableError : String := "record signature cache unreadable"

/-- `process_incremental`.  The precondition is the falsiness of the loaded
baseline counts; a corrupt signature blob raises out of the loader; the
no-changes branch returns before any cache write; the with-changes branch
rewrites counts, KPI cache and run metadata but never the signature blob. -/
def processIncremental (cfg : Config) (df : DF) (now : Int) (s : CacheState) :
    Except String (Envelope × CacheState) :=
  if (loadBaselineCounts s).isEmpty then .error noBaselineError
  else
    match loadRecordSignatures s.record_signatures with
    | none => .error sigUnreadableError
    | some prev =>
      let changes := detectConfigurableChanges cfg prev df
      if changes.has_changes then
        let updatedCounts := updateAffectedCounts changes (loadBaselineCounts s)
        let updatedKpis := updateAffectedKpis cfg changes updatedCounts df (loadKpiCache s) now
        let overall := calculateScorecardScore cfg updatedKpis now
        let s2 : CacheState :=
          { s with
            baseline_counts := some updatedCounts
            kpi_cache := some updatedKpis
            last_processed := some { timestamp := now, record_count := df.rows.length, config_version := cfg.version } }
        .ok
          ({ mode := "incremental"
             timestamp := some now
             config_version := some cfg.version
             records_processed := some df.rows.length
             changes_detected := some true
             affected_kpis := some changes.affected_kpis
             updated_kpis := some (restrictKpis updatedKpis changes.affected_kpis)
             overall_score := some overall
             processing_speedup := some changes.speedup_factor
             message := some "Incremental update completed with full configurability" }, s2)
      else .ok (noChangesEnvelope cfg, s)

/-- `process_targeted`: validate the KPI id, its enabled flag and its
required fields, restrict the frame to the relevant columns, compute the
targeted counts fresh from that frame, recalculate the one KPI, and persist
only the KPI cache. -/
def processTargeted (cfg : Config) (kpiId : String) (df : DF) (now : Int) (s : CacheState) :
    Except String (Envelope × CacheState) :=
  match lookupKpi cfg kpiId with
  | none => .error "KPI not found in configuration"
  | some k =>
    if !k.enabled then .error "KPI is disabled in configuration"
    else
      let required := k.required_fields
      if required.any (fun f => ¬ f ∈ df.cols) then .error "Missing required fields"
      else
        let relevant := required.filter (fun f => f ∈ df.cols)
        let dfRel : DF := { cols := relevant, rows := df.rows }
        let counts := calculateTargetedKpiCounts cfg dfRel kpiId now
        let updated? := calculateSingleConfigurableKpi cfg kpiId counts (some dfRel) now
        let cache2 :=
          match updated? with
          | some r => kpiSet (loadKpiCache s) kpiId r
          | none => loadKpiCache s
        .ok
          ({ mode := "targeted"
             timestamp := some now
             config_version := some cfg.version
             target_kpi := some kpiId
             records_processed := some dfRel.rows.length
             fields_processed := some relevant.length
             updated_kpi := updated?
             message := some ("Targeted update completed for " ++ kpiId ++ " with full configurability") },
            { s with kpi_cache := some cache2 })

/-! ### Dictionary lemmas -/

theorem countsGet_set_self (c : Counts) (k : String) (v : Int) :
    countsGet (countsSet c k v) k = v := by
  induction c with
  | nil => simp [countsSet, countsGet]
  | cons p rest ih =>
    by_cases h : p.1 = k
    · simp [countsSet, countsGet, h]
    · simp [countsSet, countsGet, h, ih]

theorem countsGet_set_ne (c : Counts) (k : String) (v : Int) (k2 : String) (h : k2 ≠ k) :
    countsGet (countsSet c k v) k2 = countsGet c k2 := by
  induction c with
  | nil =>
    show countsGet [(k, v)] k2 = countsGet [] k2
    simp only [countsGet]
    rw [if_neg (fun he : k = k2 => h he.symm)]
  | cons p rest ih =>
    by_cases hp : p.1 = k
    · simp only [countsSet, if_pos hp, countsGet]
      rw [if_neg (fun he : k = k2 => h he.symm), if_neg (by rw [hp]; exact fun he => h he.symm)]
    · simp only [countsSet, if_neg hp, countsGet]
      by_cases hq : p.1 = k2
      · rw [if_pos hq, if_pos hq]
      · rw [if_neg hq, if_neg hq, ih]

theorem countsGet_setAll_ne (l : List (String × Int)) (c : Counts) (k : String)
    (h : ∀ kv ∈ l, kv.1 ≠ k) :
    countsGet (countsSetAll c l) k = countsGet c k := by
  induction l generalizing c with
  | nil => rfl
  | cons kv rest ih =>
    have h1 : kv.1 ≠ k := h kv (List.mem_cons_self kv rest)
    rw [countsSetAll, ih (countsSet c kv.1 kv.2) (fun x hx => h x (List.mem_cons_of_mem kv hx)),
      countsGet_set_ne c kv.1 kv.2 k (fun he => h1 he.symm)]

/-! ### Key-distinctness helpers -/

theorem append_ne_of_head (a : Char) (p s t : String) (hp : p.data.head? = some a)
    (ht : t.data.head? ≠ some a) : p ++ s ≠ t := by
  intro he
  apply ht
  have hd := congrArg String.data he
  rw [String.data_append] at hd
  cases hq : p.data with
  | nil => rw [hq] at hp; cases hp
  | cons b l =>
    rw [hq] at hp hd
    rw [← hd]
    simpa using hp

theorem priorityLevelKey_ne (level : Int) (t : String) (ht : t.data.head? ≠ some 'p') :
    priorityLevelKey level ≠ t :=
  append_ne_of_head 'p' "priority_" (toString level ++ "_tickets") t (by decide) ht

theorem incidentsKey_ne (nm : String) (t : String) (ht : t.data.head? ≠ some 'i') :
    incidentsKey nm ≠ t :=
  append_ne_of_head 'i' "incidents_" (String.replace nm daysSuffix emptyStr) t (by decide) ht

theorem mem_priorityCountPairs_key (cfg : Config) (df : DF) (kv : String × Int)
    (h : kv ∈ priorityCountPairs cfg df) : ∃ level, kv.1 = priorityLevelKey level := by
  unfold priorityCountPairs at h
  obtain ⟨level, _, he⟩ := List.mem_map.mp h
  exact ⟨level, by rw [← he]⟩

theorem mem_agingCountPairs_key (df : DF) (now : Int) (l : List (String × Int))
    (kv : String × Int) (h : kv ∈ agingCountPairs df now l) : ∃ nm, kv.1 = incidentsKey nm := by
  induction l with
  | nil => cases h
  | cons nd rest ih =>
    rw [agingCountPairs] at h
    rcases List.mem_cons.mp h with he | hm
    · exact ⟨nd.1, by rw [he]⟩
    · exact ih hm

/-! ### Reads of the baseline counts at the keys the calculators consult -/

theorem countsGet_stepPriority (cfg : Config) (df : DF) (c : Counts) (t : String)
    (ht : t.data.head? ≠ some 'p') :
    countsGet (countsStepPriority cfg df c) t = countsGet c t := by
  unfold countsStepPriority
  split
  · exact countsGet_setAll_ne _ c t (fun kv hkv => by
      obtain ⟨level, he⟩ := mem_priorityCountPairs_key cfg df kv hkv
      rw [he]; exact priorityLevelKey_ne level t ht)
  · rfl

theorem countsGet_stepAging (cfg : Config) (df : DF) (now : Int) (c : Counts) (t : String)
    (ht : t.data.head? ≠ some 'i') :
    countsGet (countsStepAging cfg df now c) t = countsGet c t := by
  unfold countsStepAging
  split
  · exact countsGet_setAll_ne _ c t (fun kv hkv => by
      obtain ⟨nm, he⟩ := mem_agingCountPairs_key df now _ kv hkv
      rw [he]; exact incidentsKey_ne nm t ht)
  · rfl

theorem countsGet_stepReassign_ne (cfg : Config) (df : DF) (c : Counts) (t : String)
    (ht : t ≠ zeroReassignKey) :
    countsGet (countsStepReassign cfg df c) t = countsGet c t := by
  unfold countsStepReassign
  split
  · exact countsGet_set_ne c _ _ t ht
  · rfl

theorem countsGet_stepResolved_ne (df : DF) (c : Counts) (t : String)
    (ht : t ≠ resolvedTicketsKey) :
    countsGet (countsStepResolved df c) t = countsGet c t := by
  unfold countsStepResolved
  split
  · exact countsGet_set_ne c _ _ t ht
  · rfl

theorem countsGet_stepBacklog_ne (cfg : Config) (df : DF) (now : Int) (c : Counts) (t : String)
    (ht : t ≠ backlogTotalKey) :
    countsGet (countsStepBacklog cfg df now c) t = countsGet c t := by
  unfold countsStepBacklog
  split
  · exact countsGet_set_ne c _ _ t ht
  · rfl

theorem countsGet_stepCountry_ne (df : DF) (c : Counts) (t : String)
    (h1 : t ≠ totalCountriesKey) (h2 : t ≠ geoAvailableKey) :
    countsGet (countsStepCountry df c) t = countsGet c t := by
  unfold countsStepCountry
  split
  · rw [countsGet_set_ne _ _ _ t h2, countsGet_set_ne c _ _ t h1]
  · exact countsGet_set_ne c _ _ t h2

/-- The baseline counter records exactly the row count under
`total_tickets`. -/
theorem baselineCounts_total (cfg : Config) (df : DF) (now : Int) :
    countsGet (calculateConfigurableBaselineCounts cfg df now) totalTicketsKey =
      (df.rows.length : Int) := by
  unfold calculateConfigurableBaselineCounts
  rw [countsGet_stepCountry_ne _ _ _ (by decide) (by decide),
    countsGet_stepBacklog_ne _ _ _ _ _ (by decide),
    countsGet_stepAging _ _ _ _ _ (by decide),
    countsGet_stepResolved_ne _ _ _ (by decide),
    countsGet_stepReassign_ne _ _ _ _ (by decide),
    countsGet_stepPriority _ _ _ _ (by decide)]
  simp [countsStepTotal, countsGet]

/-- The baseline counter records the backlog-mask count (or no entry) under
`servicenow_backlog_total`. -/
theorem baselineCounts_backlog (cfg : Config) (df : DF) (now : Int) :
    countsGet (calculateConfigurableBaselineCounts cfg df now) backlogTotalKey =
      if Col.opened_at ∈ df.cols ∧ Col.resolved_at ∈ df.cols then backlogCount cfg df now
      else 0 := by
  unfold calculateConfigurableBaselineCounts
  rw [countsGet_stepCountry_ne _ _ _ (by decide) (by decide)]
  unfold countsStepBacklog
  split
  · rw [countsGet_set_self]
  · rw [countsGet_stepAging _ _ _ _ _ (by decide),
      countsGet_stepResolved_ne _ _ _ (by decide),
      countsGet_stepReassign_ne _ _ _ _ (by decide),
      countsGet_stepPriority _ _ _ _ (by decide)]
    simp only [countsStepTotal, countsGet]
    rw [if_neg (by decide : ¬ totalTicketsKey = backlogTotalKey)]

/-- The baseline counter records the zero-reassignment count (or no entry)
under `zero_reassignments`. -/
theorem baselineCounts_zeroReassign (cfg : Config) (df : DF) (now : Int) :
    countsGet (calculateConfigurableBaselineCounts cfg df now) zeroReassignKey =
      if Col.reassignment_count ∈ df.cols then zeroReassignCount cfg df else 0 := by
  unfold calculateConfigurableBaselineCounts
  rw [countsGet_stepCountry_ne _ _ _ (by decide) (by decide),
    countsGet_stepBacklog_ne _ _ _ _ _ (by decide),
    countsGet_stepAging _ _ _ _ _ (by decide),
    countsGet_stepResolved_ne _ _ _ (by decide)]
  unfold countsStepReassign
  split
  · rw [countsGet_set_self]
  · rw [countsGet_stepPriority _ _ _ _ (by decide)]
    simp only [countsStepTotal, countsGet]
    rw [if_neg (by decide : ¬ totalTicketsKey = zeroReassignKey)]

/-! ### Bounds of the rounded percentages -/

theorem round1_nonneg (q : ℚ) (h : 0 ≤ q) : 0 ≤ round1 q := by
  unfold round1
  apply div_nonneg _ (by norm_num)
  have h2 : round (0 : ℚ) ≤ round (q * 10) := by
    rw [round_eq, round_eq]
    exact Int.floor_mono (by nlinarith)
  rw [round_zero] at h2
  exact_mod_cast h2

theorem round1_le_100 (q : ℚ) (h : q ≤ 100) : round1 q ≤ 100 := by
  unfold round1
  rw [div_le_iff (by norm_num : (0 : ℚ) < 10)]
  have h2 : round (q * 10) ≤ round (((1000 : ℤ) : ℚ)) := by
    rw [round_eq, round_eq]
    exact Int.floor_mono (by push_cast; nlinarith)
  rw [round_intCast] at h2
  have h3 : ((round (q * 10) : ℤ) : ℚ) ≤ ((1000 : ℤ) : ℚ) := by exact_mod_cast h2
  push_cast at h3 ⊢
  linarith

theorem round1_zero : round1 0 = 0 := by
  unfold round1
  norm_num

/-- The guarded percentage of the source, `(b / t * 100) if t > 0 else 0`,
is in `[0, 100]` whenever the numerator lies between 0 and the
denominator. -/
theorem guardedPct_bounds (b t : Int) (hb : 0 ≤ b) (hbt : b ≤ t) :
    0 ≤ (if 0 < t then (b : ℚ) / (t : ℚ) * 100 else 0) ∧
      (if 0 < t then (b : ℚ) / (t : ℚ) * 100 else 0) ≤ 100 := by
  split
  next ht =>
    have ht' : (0 : ℚ) < (t : ℚ) := by exact_mod_cast ht
    have hb' : (0 : ℚ) ≤ (b : ℚ) := by exact_mod_cast hb
    have hbt' : (b : ℚ) ≤ (t : ℚ) := by exact_mod_cast hbt
    constructor
    · have := div_nonneg hb' (le_of_lt ht')
      nlinarith
    · rw [div_mul_eq_mul_div, div_le_iff ht']
      nlinarith
  next => norm_num

/-- The rounded backlog percentage of the SM002 result, extracted. -/
theorem calcSm002_backlog_percentage (counts : Counts) (targets : Targets) (k : KpiConfig)
    (now : Int) :
    (calcSm002 counts targets k now).backlog_percentage =
      some (round1 (if 0 < countsGet counts totalTicketsKey then
        (countsGet counts backlogTotalKey : ℚ) / (countsGet counts totalTicketsKey : ℚ) * 100
      else 0)) := rfl

/-- The rounded first-time-fix rate of the SM004 result, extracted. -/
theorem calcSm004_ftf_rate (counts : Counts) (targets : Targets) (k : KpiConfig) (now : Int) :
    (calcSm004 counts targets k now).ftf_rate =
      some (round1 (if 0 < countsGet counts totalTicketsKey then
        (countsGet counts zeroReassignKey : ℚ) / (countsGet counts totalTicketsKey : ℚ) * 100
      else 0)) := rfl

/-- Statement of claim C9 for one counts dictionary: the backlog percentage
of the SM002 calculator and the first-time-fix rate of the SM004 calculator
lie in `[0, 100]`, and both are exactly 0 when `total_tickets` is 0. -/
def BoundedKpiPercentages (counts : Counts) (targets : Targets) (k : KpiConfig) (now : Int) :
    Prop :=
  (0 ≤ (calcSm002 counts targets k now).backlog_percentage.getD 0 ∧
    (calcSm002 counts targets k now).backlog_percentage.getD 0 ≤ 100) ∧
  (0 ≤ (calcSm004 counts targets k now).ftf_rate.getD 0 ∧
    (calcSm004 counts targets k now).ftf_rate.getD 0 ≤ 100) ∧
  (countsGet counts totalTicketsKey = 0 →
    (calcSm002 counts targets k now).backlog_percentage = some 0 ∧
    (calcSm004 counts targets k now).ftf_rate = some 0)

/-- C9: for every counts dictionary produced by the metric counter from a
record set, the backlog percentage and the first-time-fix rate are in
`[0, 100]`, and both are exactly 0 when `total_tickets = 0` (the guarded
division never occurs with a zero denominator). -/
theorem C9_percentages_bounded (cfg : Config) (df : DF) (now : Int) (targets : Targets)
    (k : KpiConfig) (counts : Counts)
    (hc : counts = calculateConfigurableBaselineCounts cfg df now) :
    BoundedKpiPercentages counts targets k now := by
  subst hc
  have htot := baselineCounts_total cfg df now
  have hback := baselineCounts_backlog cfg df now
  have hzero := baselineCounts_zeroReassign cfg df now
  have hb0 : 0 ≤ countsGet (calculateConfigurableBaselineCounts cfg df now) backlogTotalKey := by
    rw [hback]; split
    · exact Int.ofNat_nonneg _
    · exact le_refl 0
  have hbt : countsGet (calculateConfigurableBaselineCounts cfg df now) backlogTotalKey ≤
      countsGet (calculateConfigurableBaselineCounts cfg df now) totalTicketsKey := by
    rw [hback, htot]; split
    · unfold backlogCount; exact_mod_cast List.countP_le_length _
    · exact Int.ofNat_nonneg _
  have hz0 : 0 ≤ countsGet (calculateConfigurableBaselineCounts cfg df now) zeroReassignKey := by
    rw [hzero]; split
    · exact Int.ofNat_nonneg _
    · exact le_refl 0
  have hzt : countsGet (calculateConfigurableBaselineCounts cfg df now) zeroReassignKey ≤
      countsGet (calculateConfigurableBaselineCounts cfg df now) totalTicketsKey := by
    rw [hzero, htot]; split
    · unfold zeroReassignCount; exact_mod_cast List.countP_le_length _
    · exact Int.ofNat_nonneg _
  obtain ⟨hp1, hp2⟩ := guardedPct_bounds _ _ hb0 hbt
  obtain ⟨hq1, hq2⟩ := guardedPct_bounds _ _ hz0 hzt
  refine ⟨⟨?_, ?_⟩, ⟨?_, ?_⟩, ?_⟩
  · rw [calcSm002_backlog_percentage]; exact round1_nonneg _ hp1
  · rw [calcSm002_backlog_percentage]; exact round1_le_100 _ hp2
  · rw [calcSm004_ftf_rate]; exact round1_nonneg _ hq1
  · rw [calcSm004_ftf_rate]; exact round1_le_100 _ hq2
  · intro h0
    rw [calcSm002_backlog_percentage, calcSm004_ftf_rate, h0]
    norm_num [round1_zero]

/-- Witness for C9 at a concrete empty configuration and record set. -/
theorem C9_percentages_bounded_witness :
    BoundedKpiPercentages (calculateConfigurableBaselineCounts {} {} 0) {} {} 0 :=
  C9_percentages_bounded {} {} 0 {} {} _ rfl

/-! ### Claim C2: the backlog classification -/

/-- Backlog classification as the specification words it, kept beside the
embedded source for comparison: a record is backlog iff it has a resolution
date and the resolution minus the open date in whole days exceeds the
threshold, or it has no resolution date and now minus the open date exceeds
the threshold. -/
def specBacklogRecord (threshold now : Int) (r : Row) : Bool :=
  match r.opened_at with
  | none => false
  | some op =>
    match r.resolved_at with
    | some res => decide (threshold < res - op)
    | none => decide (threshold < now - op)

/-- A record opened at day 0 and resolved at day 1: its resolution age is 1
day, far inside the default 10-day threshold. -/
def rowC2 : Row := { opened_at := some 0, resolved_at := some 1 }

def dfC2 : DF := { cols := [Col.opened_at, Col.resolved_at], rows := [rowC2] }

/-- C2: at day 20 the source counts the quickly-resolved record of `dfC2` as
backlog (its backlog mask tests current-date minus `opened_at` on the
resolved branch too), although the claimed classification, which tests the
resolution age of a resolved record, rejects it.  The claim describes the
intended rule; the code evaluates the same current-age condition on both
branches of its mask. -/
theorem C2_backlog_uses_current_age :
    countsGet (calculateConfigurableBaselineCounts {} dfC2 20) backlogTotalKey = 1 ∧
      specBacklogRecord 10 20 rowC2 = false := by
  constructor
  · decide
  · decide

/-! ### Claim C10: positional fingerprint keys -/

/-- C10: when the mapped frame has no `number` column, the fingerprint table
is keyed positionally by `row_{index}`; and when none of the configured
signature fields is a column of the frame, the generated table is empty. -/
theorem C10_positional_keys (df : DF) (sigFields : List Col)
    (hn : ¬ Col.number ∈ df.cols) :
    ((sigFields.filter (fun f => f ∈ df.cols)).isEmpty = true →
      generateConfigurableSignatures df sigFields = []) ∧
    ((sigFields.filter (fun f => f ∈ df.cols)).isEmpty = false →
      (generateConfigurableSignatures df sigFields).map Prod.fst =
        (List.range df.rows.length).map (fun i => "row_" ++ toString i)) := by
  constructor
  · intro he
    unfold generateConfigurableSignatures
    rw [if_pos he]
  · intro he
    unfold generateConfigurableSignatures
    rw [if_neg (by rw [he]; exact Bool.false_ne_true)]
    rw [List.map_map]
    have h1 : (Prod.fst ∘ fun p : Nat × Row =>
        (recordId df.cols p.2 p.1,
          hashSig (joinBar ((sigFields.filter (fun f => f ∈ df.cols)).map (cellStr p.2))))) =
        (fun p : Nat × Row => "row_" ++ toString p.1) := by
      funext p
      simp [recordId, hn]
    rw [h1]
    have h2 : (fun p : Nat × Row => "row_" ++ toString p.1) =
        (fun i => "row_" ++ toString i) ∘ Prod.fst := rfl
    rw [h2, ← List.map_map, List.enum_map_fst]

/-- A two-row frame without a `number` column. -/
def dfC10 : DF := { cols := [Col.priority], rows := [{ priority := some "P1" }, {}] }

/-- Witness for C10: on `dfC10` the fingerprint keys are exactly the two
positional identifiers. -/
theorem C10_positional_keys_witness :
    (generateConfigurableSignatures dfC10 [Col.priority]).map Prod.fst = ["row_0", "row_1"] :=
  ((C10_positional_keys dfC10 [Col.priority] (by decide)).2 (by decide)).trans (by decide)

/-! ### Claim C1: the affected-KPI set -/

def kpiSm001C1 : KpiConfig := { method := "priority_count", required_fields := [Col.priority] }

def kpiSm004C1 : KpiConfig :=
  { method := "zero_reassignments", required_fields := [Col.reassignment_count] }

def cfgC1 : Config := { kpis := [("SM001", kpiSm001C1), ("SM004", kpiSm004C1)] }

def rowC1a : Row := { number := some "INC1", priority := some "P3", reassignment_count := some 2 }

def rowC1a2 : Row := { number := some "INC1", priority := some "P3", reassignment_count := some 0 }

def rowC1b : Row := { number := some "INC2", priority := some "P2", reassignment_count := some 0 }

def colsC1 : List Col :=
  [Col.number, Col.priority, Col.state, Col.reassignment_count, Col.resolved_at, Col.opened_at]

/-- The baseline frame, and the same frame with only the first record
changed in its `reassignment_count` cell. -/
def dfC1old : DF := { cols := colsC1, rows := [rowC1a, rowC1b] }

def dfC1new : DF := { cols := colsC1, rows := [rowC1a2, rowC1b] }

def prevSigsC1 : SigTable := generateConfigurableSignatures dfC1old (sigFieldsOf cfgC1)

/-- C1 fails on the code: with only record INC1 changed, and only in its
`reassignment_count` cell, change detection reports SM001 as affected even
though the only required field of SM001 is `priority`, which did not change.
The source marks a KPI affected whenever one of its required fields is a
column of the frame, not when that field changed. -/
theorem C1_counterexample :
    (detectConfigurableChanges cfgC1 prevSigsC1 dfC1new).has_changes = true ∧
      (detectConfigurableChanges cfgC1 prevSigsC1 dfC1new).new_records = 0 ∧
      (detectConfigurableChanges cfgC1 prevSigsC1 dfC1new).changed_records = 1 ∧
      (detectConfigurableChanges cfgC1 prevSigsC1 dfC1new).affected_kpis = ["SM001", "SM004"] ∧
      (lookupKpi cfgC1 "SM001").map (fun k => k.required_fields) = some [Col.priority] := by
  refine ⟨?_, ?_, ?_, ?_, ?_⟩ <;> decide

/-- C1 as amended: when the changed-record frame is non-empty, a KPI id is
in the affected set iff it is configured, enabled, and at least one of its
required fields is a column of the input frame, independently of which
fields actually changed. -/
theorem C1_affected_kpis_amended (cfg : Config) (df : DF) (ids : List String)
    (h : (changedRecordsOf df ids).isEmpty = false) (kid : String) :
    kid ∈ determineAffectedKpisConfigurable cfg df ids ↔
      ∃ k : KpiConfig, (kid, k) ∈ cfg.kpis ∧ k.enabled = true ∧
        ∃ f ∈ k.required_fields, f ∈ df.cols := by
  unfold determineAffectedKpisConfigurable
  rw [if_neg (by rw [h]; exact Bool.false_ne_true)]
  simp only [List.mem_map, List.mem_filter, Bool.and_eq_true, List.any_eq_true,
    decide_eq_true_eq]
  constructor
  · rintro ⟨p, ⟨hp, he, f, hf, hfc⟩, heq⟩
    obtain ⟨a, b⟩ := p
    cases heq
    exact ⟨b, hp, he, f, hf, hfc⟩
  · rintro ⟨k, hk, he, f, hf, hfc⟩
    exact ⟨(kid, k), ⟨hk, he, f, hf, hfc⟩, rfl⟩

/-- Witness for the amended C1 at the concrete change of `dfC1new`. -/
theorem C1_affected_kpis_amended_witness :
    "SM001" ∈ determineAffectedKpisConfigurable cfgC1 dfC1new ["INC1"] :=
  (C1_affected_kpis_amended cfgC1 dfC1new ["INC1"] (by decide) "SM001").mpr
    ⟨kpiSm001C1, by decide, rfl, Col.priority, by decide, by decide⟩

/-! ### Claim C3: the no-changes incremental short circuit -/

/-- Detection collapses to the bare no-changes record when the diff is
empty. -/
theorem detect_no_changes (cfg : Config) (prev : SigTable) (df : DF)
    (hnew : newRecordIds prev (generateConfigurableSignatures df (sigFieldsOf cfg)) = [])
    (hchg : changedRecordIds prev (generateConfigurableSignatures df (sigFieldsOf cfg)) = []) :
    detectConfigurableChanges cfg prev df = { has_changes := false } := by
  simp only [detectConfigurableChanges]
  rw [hnew, hchg]
  rfl

/-- C3: an incremental run with a loadable baseline and fingerprint table,
whose input yields no new and no changed records, returns the short-circuit
no-changes envelope and leaves the cache state entirely unchanged (no blob
is rewritten, no KPI is recalculated). -/
theorem C3_no_changes_short_circuit (cfg : Config) (df : DF) (now : Int) (s : CacheState)
    (prev : SigTable)
    (hb : (loadBaselineCounts s).isEmpty = false)
    (hs : loadRecordSignatures s.record_signatures = some prev)
    (hnew : newRecordIds prev (generateConfigurableSignatures df (sigFieldsOf cfg)) = [])
    (hchg : changedRecordIds prev (generateConfigurableSignatures df (sigFieldsOf cfg)) = []) :
    processIncremental cfg df now s = .ok (noChangesEnvelope cfg, s) := by
  simp only [processIncremental, hs]
  rw [if_neg (by rw [hb]; exact Bool.false_ne_true)]
  rw [detect_no_changes cfg prev df hnew hchg]
  rfl

def stateC3 : CacheState :=
  { baseline_counts := some [(totalTicketsKey, 2)], record_signatures := .ok prevSigsC1 }

/-- Witness for C3: rerunning the unchanged `dfC1old` input against its own
stored fingerprints short-circuits and writes nothing. -/
theorem C3_no_changes_short_circuit_witness :
    processIncremental cfgC1 dfC1old 5 stateC3 = .ok (noChangesEnvelope cfgC1, stateC3) :=
  C3_no_changes_short_circuit cfgC1 dfC1old 5 stateC3 prevSigsC1 (by decide) (by decide)
    (by decide) (by decide)

/-- Successful part of an `Except` result. -/
def exceptOk {α : Type} : Except String α → Option α
  | .ok a => some a
  | .error _ => none

/-! ### Claim C4: counts fed to recalculated KPIs -/

def cfgC4 : Config := { kpis := [("SM004", kpiSm004C1)] }

def colsC4 : List Col := [Col.number, Col.reassignment_count]

def dfC4old : DF := { cols := colsC4, rows := [{ number := some "INC1", reassignment_count := some 2 }] }

def dfC4new : DF := { cols := colsC4, rows := [{ number := some "INC1", reassignment_count := some 0 }] }

def baselineCountsC4 : Counts := [(totalTicketsKey, 1), (zeroReassignKey, 0)]

def stateC4 : CacheState :=
  { baseline_counts := some baselineCountsC4
    record_signatures := .ok (generateConfigurableSignatures dfC4old (sigFieldsOf cfgC4)) }

/-- C4 fails on the code: the record INC1 changed its reassignment count
from 2 to 0, so a fresh count over the current input has one
zero-reassignment record, yet the incremental run recalculates SM004 from
the carried-over baseline counts and reports `ftf_count = 0`. -/
theorem C4_counterexample :
    ((exceptOk (processIncremental cfgC4 dfC4new 7 stateC4)).map
        (fun p => (kpiLookup (loadKpiCache p.2) "SM004").map (fun r => r.ftf_count)))
      = some (some (some 0)) ∧
    countsGet (calculateTargetedKpiCounts cfgC4 dfC4new "SM004" 7) zeroReassignKey = 1 := by
  constructor
  · decide
  · decide

/-- C4 as amended: the counts an incremental run feeds to every
recalculated KPI are the prior baseline counts carried over unchanged,
except that `total_tickets` alone is increased by the number of new records
when there are any; only baseline and targeted runs recompute counts from
the current input. -/
theorem C4_counts_carry_over_amended (changes : Changes) (baseline : Counts) (k : String)
    (hk : k ≠ totalTicketsKey) :
    countsGet (updateAffectedCounts changes baseline) k = countsGet baseline k ∧
    countsGet (updateAffectedCounts changes baseline) totalTicketsKey =
      (if changes.has_changes = true ∧ 0 < changes.new_records then
        countsGet baseline totalTicketsKey + (changes.new_records : Int)
      else countsGet baseline totalTicketsKey) := by
  unfold updateAffectedCounts
  constructor
  · split
    · split
      · exact countsGet_set_ne _ _ _ _ hk
      · rfl
    · rfl
  · split
    next h1 =>
      split
      next h2 => rw [countsGet_set_self, if_pos ⟨h1, h2⟩]
      next h2 => rw [if_neg (fun hc => h2 hc.2)]
    next h1 => rw [if_neg (fun hc => h1 hc.1)]

def changesC4 : Changes :=
  { has_changes := true, changed_records := 1, total_changes := 1, affected_kpis := ["SM004"] }

/-- Witness for the amended C4: with one changed and no new record, the
zero-reassignment count is carried over verbatim. -/
theorem C4_counts_carry_over_amended_witness :
    countsGet (updateAffectedCounts changesC4 baselineCountsC4) zeroReassignKey =
      countsGet baselineCountsC4 zeroReassignKey :=
  (C4_counts_carry_over_amended changesC4 baselineCountsC4 zeroReassignKey (by decide)).1

/-! ### Claim C5: the fingerprint table after an incremental run -/

/-- C5 fails on the code: the incremental run on `dfC4new` detects a change,
yet the persisted fingerprint blob afterwards is still the old table of
`dfC4old`, not the fingerprints of the current input. -/
theorem C5_counterexample :
    ((exceptOk (processIncremental cfgC4 dfC4new 7 stateC4)).map
        (fun p => p.1.changes_detected)) = some (some true) ∧
    ((exceptOk (processIncremental cfgC4 dfC4new 7 stateC4)).map
        (fun p => p.2.record_signatures)) = some stateC4.record_signatures ∧
    ¬ stateC4.record_signatures =
        .ok (generateConfigurableSignatures dfC4new (sigFieldsOf cfgC4)) := by
  refine ⟨?_, ?_, ?_⟩
  · decide
  · decide
  · decide

/-- C5 as amended: only a baseline run replaces the fingerprint table
(wholesale, with the fingerprints of the frame it processed); a successful
incremental run, changes or not, leaves the stored fingerprint blob exactly
as it was. -/
theorem C5_signatures_amended (cfg : Config) (df : DF) (now : Int) (s : CacheState) :
    (∀ p, processIncremental cfg df now s = .ok p →
      p.2.record_signatures = s.record_signatures) ∧
    (∀ p, processBaseline cfg df now s = .ok p →
      p.2.record_signatures =
        .ok (generateConfigurableSignatures (fillnaReassign cfg df) (sigFieldsOf cfg))) := by
  constructor
  · intro p h
    simp only [processIncremental] at h
    split at h
    · cases h
    · split at h
      · cases h
      · split at h
        · cases h; rfl
        · cases h; rfl
  · intro p h
    simp only [processBaseline] at h
    split at h
    · cases h; rfl
    · cases h

/-- Witness for the amended C5: the concrete with-changes incremental run
keeps the old fingerprint blob. -/
theorem C5_signatures_amended_witness :
    (exceptOk (processIncremental cfgC4 dfC4new 7 stateC4)).map
        (fun p => p.2.record_signatures) = some stateC4.record_signatures := by
  cases hq : processIncremental cfgC4 dfC4new 7 stateC4 with
  | error e =>
    have hx : (exceptOk (processIncremental cfgC4 dfC4new 7 stateC4)).isSome = true := by decide
    rw [hq] at hx
    cases hx
  | ok p =>
    have hr := (C5_signatures_amended cfgC4 dfC4new 7 stateC4).1 p hq
    simp [exceptOk, hr]

/-! ### Claim C6: baseline determinism -/

/-- C6: the baseline run is a pure function of the configuration, the input
frame and the clock reading; in particular it is wholly independent of the
cache state it starts from, so two baseline runs on identical input (for
one clock reading) return identical envelopes, KPI results, scorecards and
final cache states. -/
theorem C6_baseline_deterministic (cfg : Config) (df : DF) (now : Int) (s1 s2 : CacheState) :
    processBaseline cfg df now s1 = processBaseline cfg df now s2 := rfl

/-! ### Claim C7: fingerprint-store failure semantics -/

def stateC7 : CacheState :=
  { baseline_counts := some [(totalTicketsKey, 1)], record_signatures := .corrupt }

/-- C7 fails on the code: with the baseline counts blob present but the
fingerprint blob unreadable, the incremental run raises instead of
degrading to an empty table. -/
theorem C7_counterexample :
    (loadBaselineCounts stateC7).isEmpty = false ∧
      processIncremental {} {} 0 stateC7 = .error sigUnreadableError := by
  constructor
  · decide
  · rfl

/-- C7 as amended: an absent fingerprint blob loads as the empty table (so
every current record counts as new), but an unreadable blob makes the
incremental run fail even with baseline counts present; an empty or absent
baseline counts blob is likewise fatal. -/
theorem C7_fingerprint_failure_amended (cfg : Config) (df : DF) (now : Int) (s : CacheState) :
    loadRecordSignatures .absent = some [] ∧
    ((loadBaselineCounts s).isEmpty = true →
      processIncremental cfg df now s = .error noBaselineError) ∧
    ((loadBaselineCounts s).isEmpty = false → s.record_signatures = .corrupt →
      processIncremental cfg df now s = .error sigUnreadableError) := by
  refine ⟨rfl, ?_, ?_⟩
  · intro h
    unfold processIncremental
    rw [if_pos h]
  · intro h hc
    unfold processIncremental
    rw [if_neg (by rw [h]; exact Bool.false_ne_true), hc]
    rfl

/-- Witness for the amended C7 at the corrupt concrete state. -/
theorem C7_fingerprint_failure_amended_witness :
    processIncremental {} {} 0 stateC7 = .error sigUnreadableError :=
  (C7_fingerprint_failure_amended {} {} 0 stateC7).2.2 (by decide) rfl

/-! ### Claim C8: envelope fields per mode -/

/-- C8 fails on the code: the no-changes incremental envelope carries
neither a timestamp nor a record count nor a scorecard. -/
theorem C8_counterexample :
    ((exceptOk (processIncremental cfgC1 dfC1old 5 stateC3)).map
        (fun p => (p.1.changes_detected, p.1.timestamp, p.1.records_processed,
          p.1.overall_score.isSome)))
      = some (some false, none, none, false) := by
  decide

/-- C8 as amended: baseline, targeted and with-changes incremental
envelopes carry `mode`, `timestamp` and `records_processed` (and the
baseline and with-changes incremental ones the `overall_score` scorecard),
but the no-changes incremental envelope carries only the mode,
`changes_detected = false` and diagnostic fields, with no timestamp, record
count or scorecard. -/
theorem C8_envelope_fields_amended (cfg : Config) (df : DF) (now : Int) (s : CacheState)
    (kpiId : String) :
    (∀ p, processBaseline cfg df now s = .ok p →
      p.1.mode = "baseline" ∧ p.1.timestamp = some now ∧
        p.1.records_processed = some df.rows.length ∧ p.1.overall_score.isSome = true) ∧
    (∀ p, processTargeted cfg kpiId df now s = .ok p →
      p.1.mode = "targeted" ∧ p.1.timestamp = some now ∧
        p.1.records_processed = some df.rows.length) ∧
    (∀ p, processIncremental cfg df now s = .ok p →
      (p.1.changes_detected = some true →
        p.1.mode = "incremental" ∧ p.1.timestamp = some now ∧
          p.1.records_processed = some df.rows.length ∧ p.1.overall_score.isSome = true) ∧
      (p.1.changes_detected = some false →
        p.1.mode = "incremental" ∧ p.1.timestamp = none ∧
          p.1.records_processed = none ∧ p.1.overall_score = none)) := by
  refine ⟨?_, ?_, ?_⟩
  · intro p h
    simp only [processBaseline] at h
    split at h
    · cases h; exact ⟨rfl, rfl, rfl, rfl⟩
    · cases h
  · intro p h
    simp only [processTargeted] at h
    split at h
    · cases h
    · split at h
      · cases h
      · split at h
        · cases h
        · cases h; exact ⟨rfl, rfl, rfl⟩
  · intro p h
    simp only [processIncremental] at h
    split at h
    · cases h
    · split at h
      · cases h
      · split at h
        · cases h
          refine ⟨fun _ => ⟨rfl, rfl, rfl, rfl⟩, fun hf => ?_⟩
          cases hf
        · cases h
          refine ⟨fun ht => ?_, fun _ => ⟨rfl, rfl, rfl, rfl⟩⟩
          cases ht

/-- Witness for the amended C8: all three modes run successfully on the
concrete C4 inputs and their envelopes carry the claimed fields. -/
theorem C8_envelope_fields_amended_witness :
    ((exceptOk (processBaseline cfgC4 dfC4new 7 stateC4)).map
        (fun p => (p.1.mode, p.1.timestamp, p.1.records_processed))
      = some ("baseline", some 7, some 1)) ∧
    ((exceptOk (processTargeted cfgC4 "SM004" dfC4new 7 stateC4)).map
        (fun p => (p.1.mode, p.1.timestamp, p.1.records_processed))
      = some ("targeted", some 7, some 1)) ∧
    ((exceptOk (processIncremental cfgC4 dfC4new 7 stateC4)).map
        (fun p => (p.1.mode, p.1.timestamp, p.1.records_processed))
      = some ("incremental", some 7, some 1)) := by
  refine ⟨?_, ?_, ?_⟩
  · cases hq : processBaseline cfgC4 dfC4new 7 stateC4 with
    | error e =>
      have hx : (exceptOk (processBaseline cfgC4 dfC4new 7 stateC4)).isSome = true := by decide
      rw [hq] at hx; cases hx
    | ok p =>
      obtain ⟨h1, h2, h3, _⟩ := (C8_envelope_fields_amended cfgC4 dfC4new 7 stateC4 "SM004").1 p hq
      simp [exceptOk, h1, h2, h3]
      decide
  · cases hq : processTargeted cfgC4 "SM004" dfC4new 7 stateC4 with
    | error e =>
      have hx : (exceptOk (processTargeted cfgC4 "SM004" dfC4new 7 stateC4)).isSome = true := by
        decide
      rw [hq] at hx; cases hx
    | ok p =>
      obtain ⟨h1, h2, h3⟩ :=
        (C8_envelope_fields_amended cfgC4 dfC4new 7 stateC4 "SM004").2.1 p hq
      simp [exceptOk, h1, h2, h3]
      decide
  · cases hq : processIncremental cfgC4 dfC4new 7 stateC4 with
    | error e =>
      have hx : (exceptOk (processIncremental cfgC4 dfC4new 7 stateC4)).isSome = true := by decide
      rw [hq] at hx; cases hx
    | ok p =>
      have hcd : p.1.changes_detected = some true := by
        have hy : (exceptOk (processIncremental cfgC4 dfC4new 7 stateC4)).map
            (fun q => q.1.changes_detected) = some (some true) := by decide
        rw [hq] at hy
        simpa [exceptOk] using hy
      obtain ⟨h1, h2, h3, _⟩ :=
        ((C8_envelope_fields_amended cfgC4 dfC4new 7 stateC4 "SM004").2.2 p hq).1 hcd
      simp [exceptOk, h1, h2, h3]
      decide

end KpiProc
